import Mathlib

/-!
Verification of the Audit & Remediation Engine of the World-Tools repository
(`AuditLogTool.py`) against its natural-language specification.

The Python source is shallowly embedded: each helper and scan/fix function of
`AuditLogTool.py` becomes an executable Lean definition of the same name
(adapter calls into the engine become function parameters; Python exceptions
become `Except Unit`; Python `None` becomes `Option`).  String operations of
Python (`in`, `startswith`, `split`, `capitalize`, `lower`) are modelled by
structurally recursive functions over `List Char` so that every definition
evaluates inside the kernel; casing is modelled by `Char.toUpper`/`Char.toLower`
(exact for the ASCII data handled by the tool).
-/

/-- Python substring test, first argument is the haystack: scans every suffix. -/
def listStartsWith : List Char → List Char → Bool
  | _, [] => true
  | [], _ :: _ => false
  | c :: cs, d :: ds => c == d && listStartsWith cs ds

/-- Embedding of Python `hay.startswith(pat)` (`str.startswith`). -/
def pyStartsWith (s pat : String) : Bool :=
  listStartsWith s.data pat.data

/-- Substring containment over char lists (`pat` occurs somewhere in the list). -/
def listContainsSub : List Char → List Char → Bool
  | [], pat => listStartsWith [] pat
  | c :: cs, pat => listStartsWith (c :: cs) pat || listContainsSub cs pat

/-- Embedding of Python `sub in hay` on strings. -/
def pyIn (sub hay : String) : Bool :=
  listContainsSub hay.data sub.data

/-- Python `name.split("_")`: cuts at every underscore, keeping empty pieces
(Python: `"a__b".split("_") == ["a", "", "b"]`, `"".split("_") == [""]`). -/
def splitUnderscore : List Char → List (List Char)
  | [] => [[]]
  | c :: cs =>
    if c == '_' then [] :: splitUnderscore cs
    else
      match splitUnderscore cs with
      | [] => [[c]]
      | w :: ws => (c :: w) :: ws

/-- Python `w.capitalize()`: first character uppercased, the rest lowercased. -/
def pyCapitalize : List Char → List Char
  | [] => []
  | c :: cs => c.toUpper :: cs.map Char.toLower

/-- Python `"_".join(ws)`. -/
def joinUnderscore : List (List Char) → List Char
  | [] => []
  | [w] => w
  | w :: ws => w ++ '_' :: joinUnderscore ws

/-- The character class `[A-Za-z0-9_]` of the regex in `clean_asset_name`. -/
def isWordChar (c : Char) : Bool :=
  if ('A' ≤ c ∧ c ≤ 'Z') ∨ ('a' ≤ c ∧ c ≤ 'z') ∨ ('0' ≤ c ∧ c ≤ '9') ∨ c = '_' then
    true
  else false

/-- Lexicographic order on strings by code point, used to speak about
"sorted by record id" (`String.lt` itself does not evaluate in the kernel). -/
def strLtb : List Char → List Char → Bool
  | [], [] => false
  | [], _ :: _ => true
  | _ :: _, [] => false
  | c :: cs, d :: ds =>
    if c.toNat < d.toNat then true
    else if d.toNat < c.toNat then false
    else strLtb cs ds

/-- Metadata of one registry record, mirroring the fields of `unreal.AssetData`
that `AuditLogTool.py` reads.  `cls_path_name` models
`asset_data.asset_class_path.asset_name`, with `none` standing for the access
raising (the source wraps it in `try`/`except`); `cls_str` models the fallback
`str(asset_data.asset_class)`. -/
structure AssetData where
  package_name : String
  package_path : String
  asset_name : String
  cls_path_name : Option String
  cls_str : String
deriving DecidableEq

/-- `build_object_path` of the source: `f"{pkg}.{name}"`. -/
def build_object_path (a : AssetData) : String :=
  a.package_name ++ "." ++ a.asset_name

/-- `is_under_game` of the source: `str(asset_data.package_name).startswith("/Game")`
(the `try`/`except False` around the pure string conversion cannot fire in the
model, where `package_name` is already a string). -/
def is_under_game (a : AssetData) : Bool :=
  pyStartsWith a.package_name "/Game"

/-- `is_static_mesh_asset` of the source: the class-path access may raise
(`cls_path_name = none`), in which case the `except` returns `False`. -/
def is_static_mesh_asset (a : AssetData) : Bool :=
  match a.cls_path_name with
  | some c => c == "StaticMesh"
  | none => false

/-- `bad_name` of the source.  `Except.error ()` models the uncaught
`IndexError` that `asset_name[0]` raises on the empty string; otherwise the
result is the (optional) violation reason.  `first_char.lower() == first_char`
is modelled by `Char.toLower`. -/
def bad_name (asset_name : String) : Except Unit (Option String) :=
  if pyIn " " asset_name then .ok (some "Contains spaces")
  else if pyStartsWith asset_name "New" || pyStartsWith asset_name "Untitled" then
    .ok (some "Temp/placeholder name")
  else
    match asset_name.data with
    | [] => .error ()
    | c :: _ => .ok (if c.toLower == c then some "Starts lowercase" else none)

/-- `get_prefix_for_class` of the source (Python `in` is substring containment). -/
def get_pfx_for_class (cls : String) : String :=
  if pyIn "StaticMesh" cls then "SM_"
  else if pyIn "MaterialInstance" cls then "MI_"
  else if pyIn "Material" cls then "M_"
  else if pyIn "Texture" cls then "T_"
  else if pyIn "Blueprint" cls then "BP_"
  else if pyIn "Sound" cls then "S_"
  else "A_"

/-- `clean_asset_name` of the source: replace every character outside
`[A-Za-z0-9_]` by `_`, replace spaces by `_` (a no-op after the first step,
kept for fidelity), then split on `_`, drop empty words, capitalize each word
and re-join with `_`. -/
def clean_asset_name (name : String) : String :=
  let step1 := name.data.map (fun c => if isWordChar c then c else '_')
  let step2 := step1.map (fun c => if c == ' ' then '_' else c)
  let words := (splitUnderscore step2).filter (fun w => !w.isEmpty)
  String.mk (joinUnderscore (words.map pyCapitalize))

/-- `find_missing_or_broken_assets` of the source, with the adapter's
`load_asset_safe` success abstracted as `loadOk` (the source's
`load_asset_safe` never raises: it catches and returns `None`). -/
def find_missing_or_broken_assets (loadOk : String → Bool) (assets : List AssetData) :
    List (String × String) :=
  (assets.filter is_under_game).filterMap fun a =>
    if loadOk (build_object_path a) then none
    else some (build_object_path a, "Asset failed to load / possibly missing")

/-- Loop body of `audit_naming_and_nanite` over the already-filtered asset
list.  `flagRead` models the chain
`mesh.get_editor_property("nanite_settings").get_editor_property("enabled")`,
whose exception is caught and turned into `enabled = False`.  `bad_name` is
NOT protected in the source, so its `IndexError` propagates out of the whole
scan (`Except.error`). -/
def audit_go (loadOk : String → Bool) (flagRead : String → Except Unit Bool) :
    List AssetData → Except Unit (List (String × String) × List (String × String))
  | [] => .ok ([], [])
  | a :: rest =>
    match bad_name a.asset_name with
    | .error e => .error e
    | .ok name_problem =>
      let path := build_object_path a
      let naming_here : List (String × String) :=
        match name_problem with
        | some p => [(path, "Naming issue: " ++ p)]
        | none => []
      let nanite_here : List (String × String) :=
        if is_static_mesh_asset a then
          if loadOk path then
            let enabled := match flagRead path with | .ok b => b | .error _ => false
            if enabled then [] else [(path, "StaticMesh has Nanite DISABLED")]
          else []
        else []
      match audit_go loadOk flagRead rest with
      | .error e => .error e
      | .ok (nl, ml) => .ok (naming_here ++ nl, nanite_here ++ ml)

/-- `audit_naming_and_nanite` of the source: filter to `/Game`, then the loop. -/
def audit_naming_and_nanite (loadOk : String → Bool) (flagRead : String → Except Unit Bool)
    (assets : List AssetData) :
    Except Unit (List (String × String) × List (String × String)) :=
  audit_go loadOk flagRead (assets.filter is_under_game)

/-- Loop of `find_unused_assets` over the filtered list.  The referencer
lookup (`find_package_referencers_for_asset`) is called with NO exception
handling in the source, so a raising lookup aborts the whole scan. -/
def find_unused_go (lookup : String → Except Unit (List String)) :
    List AssetData → Except Unit (List (String × String))
  | [] => .ok []
  | a :: rest =>
    match lookup (build_object_path a) with
    | .error e => .error e
    | .ok refs =>
      match find_unused_go lookup rest with
      | .error e => .error e
      | .ok tail =>
        .ok (if refs.isEmpty then
              (build_object_path a, "Unused asset (no referencers)") :: tail
            else tail)

/-- `find_unused_assets` of the source. -/
def find_unused_assets (lookup : String → Except Unit (List String))
    (assets : List AssetData) : Except Unit (List (String × String)) :=
  find_unused_go lookup (assets.filter is_under_game)

/-- Result of one `auto_fix_naming` run: the final adapter state, the
`renamed` list the source returns, the warnings the source logs through
`unreal.log_warning` (the exception text is not modelled), and — as ghost
instrumentation for frame reasoning — the list of `(old_path, new_path)`
arguments of every `rename_asset` call that was attempted. -/
structure FixResult (σ : Type) where
  finalState : σ
  renamed : List (String × String)
  warnings : List String
  calls : List (String × String)
deriving DecidableEq

/-- `auto_fix_naming` of the source, over an abstract stateful rename adapter
(`unreal.EditorAssetLibrary.rename_asset`): the adapter may update its state,
return a success boolean, or raise (`Except.error`).  A raised rename is
caught, logged and the loop continues; a `False` result is silently skipped;
assets outside `/Game` or already carrying the correct prefix are skipped
before any adapter call. -/
def auto_fix_naming (rename : σ → String → String → σ × Except Unit Bool) :
    σ → List AssetData → FixResult σ
  | s, [] => ⟨s, [], [], []⟩
  | s, a :: rest =>
    if !is_under_game a then auto_fix_naming rename s rest
    else
      let old_name := a.asset_name
      let cls := match a.cls_path_name with | some c => c | none => a.cls_str
      let pfx := get_pfx_for_class cls
      if pyStartsWith old_name pfx then auto_fix_naming rename s rest
      else
        let new_name := pfx ++ clean_asset_name old_name
        let old_path := build_object_path a
        let new_path := a.package_path ++ "/" ++ new_name
        let res := rename s old_path new_path
        let tail := auto_fix_naming rename res.1 rest
        match res.2 with
        | .ok true =>
          ⟨tail.finalState, (old_name, new_name) :: tail.renamed, tail.warnings,
            (old_path, new_path) :: tail.calls⟩
        | .ok false =>
          ⟨tail.finalState, tail.renamed, tail.warnings, (old_path, new_path) :: tail.calls⟩
        | .error _ =>
          ⟨tail.finalState, tail.renamed, ("Failed to rename " ++ old_name) :: tail.warnings,
            (old_path, new_path) :: tail.calls⟩

/-- Payload state of one loaded static mesh as `enable_nanite_for_all_flagged`
sees it: `flagRead?` is the value of the nanite `enabled` flag, `none` when
reading the nanite settings raises (caught by the source); `writeOk` is
whether writing the settings back and saving succeeds (a raise is caught and
the record is skipped without being counted). -/
structure MeshPayload where
  flagRead? : Option Bool
  writeOk : Bool
deriving DecidableEq

/-- A registry snapshot for the feature pass: each record's metadata paired
with its loaded payload (`none` models `load_asset_safe` failing).  Record
identity is the record itself (paths are unique in the registry). -/
abbrev Registry : Type :=
  List (AssetData × Option MeshPayload)

/-- Per-record body of the `enable_nanite_for_all_flagged` loop: returns the
record's new state together with its contribution to the `changed` counter. -/
def enable_step (e : AssetData × Option MeshPayload) :
    (AssetData × Option MeshPayload) × Nat :=
  if !is_under_game e.1 then (e, 0)
  else if !is_static_mesh_asset e.1 then (e, 0)
  else
    match e.2 with
    | none => (e, 0)
    | some p =>
      match p.flagRead? with
      | none => (e, 0)
      | some true => (e, 0)
      | some false =>
        if p.writeOk then ((e.1, some ⟨some true, p.writeOk⟩), 1) else (e, 0)

/-- `enable_nanite_for_all_flagged` of the source: fold the per-record body
over the registry, accumulating the `changed` counter and the updated
registry state. -/
def enable_nanite_for_all_flagged : Registry → Nat × Registry
  | [] => (0, [])
  | e :: rest =>
    let here := enable_step e
    let tail := enable_nanite_for_all_flagged rest
    (here.2 + tail.1, here.1 :: tail.2)

/-- Report aggregation of `AuditLogController.on_audit`: the four scan
sections in the order the source emits them (missing, naming, nanite,
unused), plus the summary total.  An exception escaping `bad_name` or the
referencer lookup aborts the whole audit, as in the source. -/
def on_audit_report (loadOk : String → Bool) (flagRead : String → Except Unit Bool)
    (lookup : String → Except Unit (List String)) (assets : List AssetData) :
    Except Unit (List (String × String) × Nat) :=
  let missing := find_missing_or_broken_assets loadOk assets
  match audit_naming_and_nanite loadOk flagRead assets with
  | .error e => .error e
  | .ok (naming, nanite) =>
    match find_unused_assets lookup assets with
    | .error e => .error e
    | .ok unused =>
      .ok (missing ++ naming ++ nanite ++ unused,
        missing.length + naming.length + nanite.length + unused.length)

/-! ### Spec-side definitions (written from the specification's words, for
comparison with the source embedding) and per-record characterizations. -/

/-- Modelled from the spec's words for the name validator (§4.1 / claim C5):
"(a) it contains a whitespace character, (b) it begins with a configured
placeholder token, (c) its first character is lower-case", first matching
reason only.  Used solely to compare the claimed checks with `bad_name`. -/
def bad_name_claimed (asset_name : String) : Option String :=
  if asset_name.data.any Char.isWhitespace then some "Contains spaces"
  else if pyStartsWith asset_name "New" || pyStartsWith asset_name "Untitled" then
    some "Temp/placeholder name"
  else
    match asset_name.data with
    | [] => none
    | c :: _ => if c.isLower then some "Starts lowercase" else none

/-- Whether the first character of a name equals its own lowercasing — the
actual check the source performs for the "Starts lowercase" reason (true for
lowercase letters but also for digits, `_`, and every other caseless
character). -/
def firstCharCaseless (s : String) : Bool :=
  match s.data with
  | [] => false
  | c :: _ => c.toLower == c

/-- The rename decision `auto_fix_naming` takes for a single record, in
isolation: `none` when the record is skipped (outside `/Game`, or already
correctly prefixed), otherwise `some (old_name, new_name, new_path)`. -/
def fix_target (a : AssetData) : Option (String × String × String) :=
  if !is_under_game a then none
  else
    let cls := match a.cls_path_name with | some c => c | none => a.cls_str
    let pfx := get_pfx_for_class cls
    if pyStartsWith a.asset_name pfx then none
    else
      let new_name := pfx ++ clean_asset_name a.asset_name
      some (a.asset_name, new_name, a.package_path ++ "/" ++ new_name)

/-- The `renamed` entry a single record contributes under a stateless rename
adapter `respond`. -/
def renamed_row (respond : String → String → Except Unit Bool) (a : AssetData) :
    Option (String × String) :=
  match fix_target a with
  | none => none
  | some (old_name, new_name, new_path) =>
    match respond (build_object_path a) new_path with
    | .ok true => some (old_name, new_name)
    | _ => none

/-- The warning a single record contributes under a stateless rename adapter. -/
def warning_row (respond : String → String → Except Unit Bool) (a : AssetData) :
    Option String :=
  match fix_target a with
  | none => none
  | some (old_name, _, new_path) =>
    match respond (build_object_path a) new_path with
    | .error _ => some ("Failed to rename " ++ old_name)
    | _ => none

/-- The rename call a single record causes to be attempted (independent of
the adapter's answers). -/
def call_row (a : AssetData) : Option (String × String) :=
  match fix_target a with
  | none => none
  | some (_, _, new_path) => some (build_object_path a, new_path)

/-- The `Missing / Broken` row a single `/Game` record contributes. -/
def missing_row (loadOk : String → Bool) (a : AssetData) : Option (String × String) :=
  if loadOk (build_object_path a) then none
  else some (build_object_path a, "Asset failed to load / possibly missing")

/-- The naming-issue row a single `/Game` record contributes (when its name
is non-empty, so that `bad_name` does not raise). -/
def naming_row (a : AssetData) : Option (String × String) :=
  match bad_name a.asset_name with
  | .ok (some p) => some (build_object_path a, "Naming issue: " ++ p)
  | _ => none

/-- The nanite-issue row a single `/Game` record contributes. -/
def nanite_row (loadOk : String → Bool) (flagRead : String → Except Unit Bool)
    (a : AssetData) : Option (String × String) :=
  if is_static_mesh_asset a then
    if loadOk (build_object_path a) then
      let enabled := match flagRead (build_object_path a) with | .ok b => b | .error _ => false
      if enabled then none else some (build_object_path a, "StaticMesh has Nanite DISABLED")
    else none
  else none

/-- The unused-asset row a single `/Game` record contributes (when its lookup
does not raise). -/
def unused_row (lookup : String → Except Unit (List String)) (a : AssetData) :
    Option (String × String) :=
  match lookup (build_object_path a) with
  | .ok refs => if refs.isEmpty then
      some (build_object_path a, "Unused asset (no referencers)") else none
  | .error _ => none

/-! ### Adapter instances and concrete records used by witnesses and
counterexamples. -/

/-- A stateless rename adapter built from a per-call response function. -/
def statelessRename (respond : String → String → Except Unit Bool) :
    Unit → String → String → Unit × Except Unit Bool :=
  fun _ old_path new_path => ((), respond old_path new_path)

/-- A rename adapter that always succeeds. -/
def alwaysOkRename : Unit → String → String → Unit × Except Unit Bool :=
  fun _ _ _ => ((), .ok true)

/-- A rename adapter with the registry's uniqueness behaviour: the state is
the list of destination paths already taken; renaming onto a taken
destination fails (returns `False`), otherwise the destination is recorded
and the rename succeeds. -/
def registryRename (s : List String) (_old_path new_path : String) :
    List String × Except Unit Bool :=
  if new_path ∈ s then (s, .ok false) else (new_path :: s, .ok true)

/-- A `/Game` static mesh named `crate_01` (spec example). -/
def crateA : AssetData :=
  ⟨"/Game/Props", "/Game/Props", "crate_01", some "StaticMesh", "StaticMesh"⟩

/-- A second `/Game` static mesh, named `Crate_01`, which canonicalizes to
the same target name `SM_Crate_01` in the same container as `crateA`. -/
def crateB : AssetData :=
  ⟨"/Game/Props", "/Game/Props", "Crate_01", some "StaticMesh", "StaticMesh"⟩

/-- A `/Game` static mesh already named `SM_Crate_01`. -/
def smCrate : AssetData :=
  ⟨"/Game/Props", "/Game/Props", "SM_Crate_01", some "StaticMesh", "StaticMesh"⟩

/-- A `/Game` static mesh used by feature-check witnesses. -/
def meshM : AssetData :=
  ⟨"/Game/M", "/Game/M", "Mesh1", some "StaticMesh", "StaticMesh"⟩

/-- A record outside `/Game` (under `/Engine`), used for frame-condition
witnesses. -/
def engineA : AssetData :=
  ⟨"/Engine/Basic", "/Engine/Basic", "cube", some "StaticMesh", "StaticMesh"⟩

/-- Two `/Game` texture records with lowercase names, listed in reverse id
order (`b_item` before `a_item`). -/
def bItem : AssetData :=
  ⟨"/Game/P", "/Game/P", "b_item", some "Texture2D", "Texture2D"⟩

/-- See `bItem`. -/
def aItem : AssetData :=
  ⟨"/Game/P", "/Game/P", "a_item", some "Texture2D", "Texture2D"⟩

/-! ### Claim theorems -/

/-- Claim C2 (code bug): on the empty name, `bad_name` does not return a
distinct violation reason — it propagates the uncaught `IndexError` of
`asset_name[0]` (modelled by `Except.error`), contradicting the spec's
requirement that a name with no first character "must fail validation with a
distinct reason rather than raise an unhandled fault". -/
theorem claim_C2_empty_name_raises : bad_name "" = .error () := rfl

/-- Claim C1 (counterexample): `crate_01` and `Crate_01` live in the same
container and canonicalize to the same target name `SM_Crate_01`, yet with a
registry-uniqueness adapter the batch renames the first record anyway — the
plans are never validated against each other and it is not the case that
"neither record is renamed". -/
theorem claim_C1_counterexample :
    ("SM_" ++ clean_asset_name "crate_01" = "SM_" ++ clean_asset_name "Crate_01")
    ∧ crateA.package_path = crateB.package_path
    ∧ (auto_fix_naming registryRename [] [crateA, crateB]).renamed
      = [("crate_01", "SM_Crate_01")] :=
  ⟨rfl, rfl, rfl⟩

/-- Claim C1 (amended): no uniqueness validation is performed; both colliding
renames are attempted in batch order (see the `calls` trace, both with
destination `/Game/Props/SM_Crate_01`).  Under an adapter that rejects an
already-taken destination, the first-processed record is renamed and the
second fails silently (first-writer-wins); under an adapter that always
accepts, both records are renamed onto the same name. -/
theorem claim_C1_amended :
    auto_fix_naming registryRename [] [crateA, crateB]
      = ⟨["/Game/Props/SM_Crate_01"], [("crate_01", "SM_Crate_01")], [],
          [("/Game/Props.crate_01", "/Game/Props/SM_Crate_01"),
           ("/Game/Props.Crate_01", "/Game/Props/SM_Crate_01")]⟩
    ∧ (auto_fix_naming alwaysOkRename () [crateA, crateB]).renamed
      = [("crate_01", "SM_Crate_01"), ("Crate_01", "SM_Crate_01")] :=
  ⟨rfl, rfl⟩

/-- Claim C5 (counterexample): the third check of `bad_name` is not "first
character is lower-case" — it fires on every caseless first character.  On
`1Box` the digit `1` is not lower-case, and none of the claimed three checks
applies (`bad_name_claimed` returns no reason), yet the code reports
`Starts lowercase`. -/
theorem claim_C5_counterexample :
    bad_name "1Box" = .ok (some "Starts lowercase")
    ∧ bad_name_claimed "1Box" = none
    ∧ Char.isLower '1' = false :=
  ⟨rfl, rfl, rfl⟩

/-- Claim C5 (amended): for every non-empty name the validator evaluates, in
this fixed order, (a) contains a space character (`" "`, not arbitrary
whitespace), (b) begins with `New` or `Untitled`, (c) the first character
equals its own lowercasing (lower-case letters, but also digits and other
caseless characters), and returns exactly the first matching reason, or no
reason. -/
theorem claim_C5_first_match_order (s : String) (h : s.data ≠ []) :
    bad_name s = .ok
      (if pyIn " " s then some "Contains spaces"
       else if pyStartsWith s "New" || pyStartsWith s "Untitled" then
         some "Temp/placeholder name"
       else if firstCharCaseless s then some "Starts lowercase"
       else none) := by
  unfold bad_name firstCharCaseless
  cases hd : s.data with
  | nil => exact absurd hd h
  | cons c cs => split_ifs with h1 h2 h3 <;> simp_all

/-- Witness for claim C5's theorem: on `New file`, where both the space check
and the placeholder check apply, the earlier check's reason is the one
returned. -/
theorem claim_C5_witness :
    bad_name "New file" = .ok
      (if pyIn " " "New file" then some "Contains spaces"
       else if pyStartsWith "New file" "New" || pyStartsWith "New file" "Untitled" then
         some "Temp/placeholder name"
       else if firstCharCaseless "New file" then some "Starts lowercase"
       else none) :=
  claim_C5_first_match_order "New file" (by decide)

/-- Claim C6: a `/Game` static mesh named `crate_01` is classified as a
naming violation with reason `Starts lowercase`, and the naming remediator
renames it to `SM_Crate_01`; a record already named `SM_Crate_01` produces no
rename (and no rename call is even attempted). -/
theorem claim_C6_crate_example :
    bad_name "crate_01" = .ok (some "Starts lowercase")
    ∧ audit_naming_and_nanite (fun _ => true) (fun _ => .ok true) [crateA]
      = .ok ([("/Game/Props.crate_01", "Naming issue: Starts lowercase")], [])
    ∧ (auto_fix_naming alwaysOkRename () [crateA]).renamed
      = [("crate_01", "SM_Crate_01")]
    ∧ (auto_fix_naming alwaysOkRename () [smCrate]).renamed = []
    ∧ (auto_fix_naming alwaysOkRename () [smCrate]).calls = [] :=
  ⟨rfl, rfl, rfl, rfl, rfl⟩

/-- Claim C3 (counterexample): a raising referencer lookup (here on
`b_item`) is not tolerated per-record — it aborts the whole unused-asset
scan, so `a_item` is never examined and no result is produced, instead of
`b_item` being treated as "has referencers" and the scan continuing. -/
theorem claim_C3_counterexample :
    find_unused_assets
      (fun p => if p = "/Game/P.b_item" then .error () else .ok ["X"])
      [bItem, aItem] = .error () :=
  rfl

/-- Claim C9 (counterexample): issues are never re-sorted by record id: two
`/Game` records enumerated as `b_item`, `a_item` are reported in enumeration
order, with the larger id `/Game/P.b_item` first. -/
theorem claim_C9_counterexample :
    on_audit_report (fun _ => true) (fun _ => .ok true) (fun _ => .ok ["r"])
      [bItem, aItem]
      = .ok ([("/Game/P.b_item", "Naming issue: Starts lowercase"),
              ("/Game/P.a_item", "Naming issue: Starts lowercase")], 2)
    ∧ strLtb "/Game/P.a_item".data "/Game/P.b_item".data = true :=
  ⟨rfl, rfl⟩

/-- Helper: a record in the scanned list whose flag read raises, whose
payload loads and which is a static mesh contributes a nanite issue whenever
the scan completes. -/
theorem audit_go_flag_error (loadOk : String → Bool) (flagRead : String → Except Unit Bool)
    (l : List AssetData) (a : AssetData)
    (res : List (String × String) × List (String × String))
    (hmem : a ∈ l) (hsm : is_static_mesh_asset a = true)
    (hload : loadOk (build_object_path a) = true)
    (hfr : flagRead (build_object_path a) = .error ())
    (hgo : audit_go loadOk flagRead l = .ok res) :
    (build_object_path a, "StaticMesh has Nanite DISABLED") ∈ res.2 := by
  induction l generalizing res with
  | nil => cases hmem
  | cons b rest ih =>
    cases hbn : bad_name b.asset_name with
    | error e => simp [audit_go, hbn] at hgo
    | ok np =>
      cases hrec : audit_go loadOk flagRead rest with
      | error e => simp [audit_go, hbn, hrec] at hgo
      | ok pr =>
        obtain ⟨nl, ml⟩ := pr
        simp only [audit_go, hbn, hrec, Except.ok.injEq] at hgo
        subst hgo
        rcases List.mem_cons.mp hmem with rfl | hmem'
        · simp [hsm, hload, hfr]
        · exact List.mem_append.mpr (Or.inr (ih _ hmem' hrec))

/-- Claim C4: for a `/Game` static mesh whose payload loads, a failing
(raising) read of the nanite flag is caught and treated as `enabled = False`,
so whenever the scan completes the record is reported with a
`StaticMesh has Nanite DISABLED` issue — it is never silently passed. -/
theorem claim_C4_flag_error (loadOk : String → Bool) (flagRead : String → Except Unit Bool)
    (assets : List AssetData) (a : AssetData)
    (res : List (String × String) × List (String × String))
    (hmem : a ∈ assets) (hug : is_under_game a = true)
    (hsm : is_static_mesh_asset a = true)
    (hload : loadOk (build_object_path a) = true)
    (hfr : flagRead (build_object_path a) = .error ())
    (haudit : audit_naming_and_nanite loadOk flagRead assets = .ok res) :
    (build_object_path a, "StaticMesh has Nanite DISABLED") ∈ res.2 :=
  audit_go_flag_error loadOk flagRead _ a res (List.mem_filter.mpr ⟨hmem, hug⟩)
    hsm hload hfr haudit

/-- Witness for claim C4's theorem, at a one-record registry whose flag read
always raises. -/
theorem claim_C4_witness :
    ("/Game/M.Mesh1", "StaticMesh has Nanite DISABLED")
      ∈ (([], [("/Game/M.Mesh1", "StaticMesh has Nanite DISABLED")]) :
          List (String × String) × List (String × String)).2 :=
  claim_C4_flag_error (fun _ => true) (fun _ => .error ()) [meshM] meshM
    ([], [("/Game/M.Mesh1", "StaticMesh has Nanite DISABLED")])
    (by decide) (by decide) (by decide) rfl rfl rfl

/-- Helper: a raising referencer lookup on any record of the scanned list
aborts the whole `find_unused` loop. -/
theorem find_unused_go_error (lookup : String → Except Unit (List String))
    (l : List AssetData) (a : AssetData) (hmem : a ∈ l)
    (hlk : lookup (build_object_path a) = .error ()) :
    find_unused_go lookup l = .error () := by
  induction l with
  | nil => cases hmem
  | cons b rest ih =>
    rcases List.mem_cons.mp hmem with rfl | hmem'
    · simp [find_unused_go, hlk]
    · cases hb : lookup (build_object_path b) with
      | error e => simp [find_unused_go, hb]
      | ok refs => simp [find_unused_go, hb, ih hmem']

/-- Helper: a record whose lookup answers the empty referencer list is
reported as unused whenever the loop completes. -/
theorem find_unused_go_empty_mem (lookup : String → Except Unit (List String))
    (l : List AssetData) (a : AssetData) (res : List (String × String))
    (hmem : a ∈ l) (hlk : lookup (build_object_path a) = .ok [])
    (hgo : find_unused_go lookup l = .ok res) :
    (build_object_path a, "Unused asset (no referencers)") ∈ res := by
  induction l generalizing res with
  | nil => cases hmem
  | cons b rest ih =>
    cases hb : lookup (build_object_path b) with
    | error e => simp [find_unused_go, hb] at hgo
    | ok refs =>
      cases hrec : find_unused_go lookup rest with
      | error e => simp [find_unused_go, hb, hrec] at hgo
      | ok tail =>
        simp only [find_unused_go, hb, hrec, Except.ok.injEq] at hgo
        subst hgo
        rcases List.mem_cons.mp hmem with rfl | hmem'
        · rw [hb] at hlk
          injection hlk with h
          subst h
          exact List.mem_cons_self _ _
        · have htail := ih _ hmem' hrec
          by_cases he : refs.isEmpty = true
          · simp only [he, if_pos]
            exact List.mem_cons_of_mem _ htail
          · simp only [he, if_neg, Bool.false_eq_true, not_false_iff]
            simpa using htail

/-- Claim C3 (amended): the referencer lookup is called with no per-record
protection: (1) a raising lookup aborts the scan of every remaining record
instead of being treated as "has referencers"; (2) an adapter failure
surfaced as an empty referencer list (the adapter contract's failure
encoding) makes the record be flagged `Unused` — the detector fails toward
flagging, not away from it. -/
theorem claim_C3_lookup_failure :
    (∀ (lookup : String → Except Unit (List String)) (assets : List AssetData)
      (a : AssetData), a ∈ assets → is_under_game a = true →
      lookup (build_object_path a) = .error () →
      find_unused_assets lookup assets = .error ())
    ∧ (∀ (lookup : String → Except Unit (List String)) (assets : List AssetData)
      (a : AssetData) (res : List (String × String)), a ∈ assets →
      is_under_game a = true → lookup (build_object_path a) = .ok [] →
      find_unused_assets lookup assets = .ok res →
      (build_object_path a, "Unused asset (no referencers)") ∈ res) :=
  ⟨fun lookup _assets a hmem hug hlk =>
    find_unused_go_error lookup _ a (List.mem_filter.mpr ⟨hmem, hug⟩) hlk,
   fun lookup _assets a res hmem hug hlk hgo =>
    find_unused_go_empty_mem lookup _ a res (List.mem_filter.mpr ⟨hmem, hug⟩) hlk hgo⟩

/-- Witness for claim C3's theorem: an always-raising lookup aborts a
one-record scan, and an empty-answer lookup flags the record as unused. -/
theorem claim_C3_witness :
    find_unused_assets (fun _ => .error ()) [bItem] = .error ()
    ∧ ("/Game/P.a_item", "Unused asset (no referencers)")
      ∈ [("/Game/P.a_item", "Unused asset (no referencers)")] :=
  ⟨claim_C3_lookup_failure.1 (fun _ => .error ()) [bItem] bItem
      (by decide) (by decide) rfl,
   claim_C3_lookup_failure.2 (fun _ => .ok []) [aItem] aItem
      [("/Game/P.a_item", "Unused asset (no referencers)")]
      (by decide) (by decide) rfl rfl⟩

/-- Helper: running the per-record feature body on a record that has already
been processed once changes nothing and counts nothing. -/
theorem enable_step_second (e : AssetData × Option MeshPayload) :
    enable_step (enable_step e).1 = ((enable_step e).1, 0) := by
  obtain ⟨a, p⟩ := e
  by_cases hug : is_under_game a = true
  · by_cases hsm : is_static_mesh_asset a = true
    · cases p with
      | none => simp [enable_step, hug, hsm]
      | some pay =>
        obtain ⟨fr, w⟩ := pay
        cases fr with
        | none => simp [enable_step, hug, hsm]
        | some b =>
          cases b
          · by_cases hw : w = true
            · simp [enable_step, hug, hsm, hw]
            · simp [enable_step, hug, hsm, hw]
          · simp [enable_step, hug, hsm]
    · simp [enable_step, hug, hsm]
  · simp [enable_step, hug]

/-- Claim C7: the feature remediation is idempotent on the registry state: an
immediate second run of `enable_nanite_for_all_flagged` over the state the
first run produced enables the flag on no record (the state is unchanged) and
returns a count of zero, because already-enabled records are skipped and not
counted. -/
theorem claim_C7_feature_fix_idempotent (reg : Registry) :
    (enable_nanite_for_all_flagged (enable_nanite_for_all_flagged reg).2).1 = 0
    ∧ (enable_nanite_for_all_flagged (enable_nanite_for_all_flagged reg).2).2
      = (enable_nanite_for_all_flagged reg).2 := by
  induction reg with
  | nil => exact ⟨rfl, rfl⟩
  | cons e rest ih =>
    constructor
    · simp [enable_nanite_for_all_flagged, enable_step_second, ih.1]
    · simp [enable_nanite_for_all_flagged, enable_step_second, ih.2]

/-- Claim C8 (counterexample): an adapter-reported rename failure is NOT
logged individually.  For `crate_01` under an adapter that answers `False`,
the rename is attempted (one call) and the record is not renamed — a failing
record — yet the warning log stays empty: only the raising branch of the
source is logged, the `False` branch is silently skipped. -/
theorem claim_C8_counterexample :
    (auto_fix_naming (statelessRename (fun _ _ => .ok false)) () [crateA]).calls
      = [("/Game/Props.crate_01", "/Game/Props/SM_Crate_01")]
    ∧ (auto_fix_naming (statelessRename (fun _ _ => .ok false)) () [crateA]).renamed
      = []
    ∧ (auto_fix_naming (statelessRename (fun _ _ => .ok false)) () [crateA]).warnings
      = [] :=
  ⟨rfl, rfl, rfl⟩

/-- Claim C8 (amended): rename application is a best-effort batch with
per-record isolation.  Under a stateless adapter, every record's contribution
to the returned rename list, to the warning log and to the set of attempted
rename calls depends only on that record and the adapter's answer for it
(`filterMap` of a per-record function): an adapter failure — `False` result
or raised exception — on one record does not abort or alter the processing of
any other record.  Only a raising record is logged with its own
`Failed to rename` warning (`warning_row` fires on the `error` branch alone);
an adapter-reported `False` is skipped silently, with no individual log
entry. -/
theorem claim_C8_partial_failure_isolation
    (respond : String → String → Except Unit Bool) (assets : List AssetData) :
    (auto_fix_naming (statelessRename respond) () assets).renamed
      = assets.filterMap (renamed_row respond)
    ∧ (auto_fix_naming (statelessRename respond) () assets).warnings
      = assets.filterMap (warning_row respond)
    ∧ (auto_fix_naming (statelessRename respond) () assets).calls
      = assets.filterMap call_row := by
  induction assets with
  | nil => exact ⟨rfl, rfl, rfl⟩
  | cons a rest ih =>
    obtain ⟨ih1, ih2, ih3⟩ := ih
    by_cases h1 : is_under_game a = true
    · by_cases h2 : pyStartsWith a.asset_name
        (get_pfx_for_class (match a.cls_path_name with | some c => c | none => a.cls_str))
        = true
      · refine ⟨?_, ?_, ?_⟩ <;>
          simp [auto_fix_naming, fix_target, renamed_row, warning_row, call_row,
            h1, h2, List.filterMap_cons, ih1, ih2, ih3]
      · cases hr : respond (build_object_path a)
          (a.package_path ++ "/" ++
            (get_pfx_for_class
              (match a.cls_path_name with | some c => c | none => a.cls_str)
              ++ clean_asset_name a.asset_name)) with
        | ok b =>
          cases b <;>
            (refine ⟨?_, ?_, ?_⟩ <;>
              simp [auto_fix_naming, fix_target, renamed_row, warning_row, call_row,
                statelessRename, h1, h2, hr, List.filterMap_cons, ih1, ih2, ih3])
        | error e =>
          refine ⟨?_, ?_, ?_⟩ <;>
            simp [auto_fix_naming, fix_target, renamed_row, warning_row, call_row,
              statelessRename, h1, h2, hr, List.filterMap_cons, ih1, ih2, ih3]
    · refine ⟨?_, ?_, ?_⟩ <;>
        simp [auto_fix_naming, fix_target, renamed_row, warning_row, call_row,
          h1, List.filterMap_cons, ih1, ih2, ih3]

/-- Helper: the feature body leaves any record outside `/Game` untouched. -/
theorem enable_step_not_game (e : AssetData × Option MeshPayload)
    (h : is_under_game e.1 = false) : enable_step e = (e, 0) := by
  simp [enable_step, h]

/-- Helper: every rename call `auto_fix_naming` attempts originates from a
record of the batch that lies under `/Game`. -/
theorem auto_fix_calls_source {σ : Type}
    (rename : σ → String → String → σ × Except Unit Bool) (s : σ)
    (assets : List AssetData) (c : String × String)
    (hc : c ∈ (auto_fix_naming rename s assets).calls) :
    ∃ a, a ∈ assets ∧ is_under_game a = true ∧ c.1 = build_object_path a := by
  induction assets generalizing s with
  | nil => cases hc
  | cons a rest ih =>
    by_cases h1 : is_under_game a = true
    · by_cases h2 : pyStartsWith a.asset_name
        (get_pfx_for_class (match a.cls_path_name with | some c => c | none => a.cls_str))
        = true
      · rw [show auto_fix_naming rename s (a :: rest) = auto_fix_naming rename s rest by
          simp [auto_fix_naming, h1, h2]] at hc
        obtain ⟨a', ha', hug', hp'⟩ := ih s hc
        exact ⟨a', List.mem_cons_of_mem _ ha', hug', hp'⟩
      · cases hres : rename s (build_object_path a)
          (a.package_path ++ "/" ++
            (get_pfx_for_class
              (match a.cls_path_name with | some c => c | none => a.cls_str)
              ++ clean_asset_name a.asset_name)) with
        | mk s' r =>
          have hcalls : (auto_fix_naming rename s (a :: rest)).calls =
              (build_object_path a,
                a.package_path ++ "/" ++
                  (get_pfx_for_class
                    (match a.cls_path_name with | some c => c | none => a.cls_str)
                    ++ clean_asset_name a.asset_name))
                :: (auto_fix_naming rename s' rest).calls := by
            cases r with
            | ok b => cases b <;> simp [auto_fix_naming, h1, h2, hres]
            | error e => simp [auto_fix_naming, h1, h2, hres]
          rw [hcalls] at hc
          rcases List.mem_cons.mp hc with rfl | hc'
          · exact ⟨a, List.mem_cons_self _ _, h1, rfl⟩
          · obtain ⟨a', ha', hug', hp'⟩ := ih s' hc'
            exact ⟨a', List.mem_cons_of_mem _ ha', hug', hp'⟩
    · rw [show auto_fix_naming rename s (a :: rest) = auto_fix_naming rename s rest by
        simp [auto_fix_naming, h1]] at hc
      obtain ⟨a', ha', hug', hp'⟩ := ih s hc
      exact ⟨a', List.mem_cons_of_mem _ ha', hug', hp'⟩

/-- Helper: a registry entry outside `/Game` is returned unchanged, at its
position, by the feature pass. -/
theorem enable_get_not_game (reg : Registry) (i : Nat) (hi : i < reg.length)
    (hi2 : i < (enable_nanite_for_all_flagged reg).2.length)
    (h : is_under_game (reg.get ⟨i, hi⟩).1 = false) :
    (enable_nanite_for_all_flagged reg).2.get ⟨i, hi2⟩ = reg.get ⟨i, hi⟩ := by
  induction reg generalizing i with
  | nil => exact absurd hi (by simp)
  | cons e rest ih =>
    cases i with
    | zero =>
      have hstep := enable_step_not_game e h
      simp [enable_nanite_for_all_flagged, List.get, hstep]
    | succ j =>
      have hj : j < rest.length := by simpa using hi
      have hj2 : j < (enable_nanite_for_all_flagged rest).2.length := by
        simpa [enable_nanite_for_all_flagged] using hi2
      simpa [enable_nanite_for_all_flagged, List.get] using ih j hj hj2 (by simpa using h)

/-- Claim C10: both mutating passes only touch `/Game` records.  (1) Every
rename call `auto_fix_naming` attempts — under any adapter and state — names
a record of the batch whose package name starts with `/Game`; in particular a
record outside `/Game` is never renamed.  (2) The feature pass returns every
registry entry outside `/Game` unchanged at its position: its flag is never
set or persisted. -/
theorem claim_C10_frame_under_game :
    (∀ (σ : Type) (rename : σ → String → String → σ × Except Unit Bool) (s : σ)
      (assets : List AssetData) (c : String × String),
      c ∈ (auto_fix_naming rename s assets).calls →
      ∃ a, a ∈ assets ∧ is_under_game a = true ∧ c.1 = build_object_path a)
    ∧ (∀ (reg : Registry) (i : Nat) (hi : i < reg.length)
        (hi2 : i < (enable_nanite_for_all_flagged reg).2.length),
      is_under_game (reg.get ⟨i, hi⟩).1 = false →
      (enable_nanite_for_all_flagged reg).2.get ⟨i, hi2⟩ = reg.get ⟨i, hi⟩) :=
  ⟨fun _σ rename s assets c hc => auto_fix_calls_source rename s assets c hc,
   fun reg i hi hi2 h => enable_get_not_game reg i hi hi2 h⟩

/-- Witness for claim C10's theorem: the single rename call of a one-record
`/Game` batch indeed names that record, and a one-record `/Engine` registry
passes through the feature fix unchanged. -/
theorem claim_C10_witness :
    (∃ a, a ∈ [crateA] ∧ is_under_game a = true
      ∧ ("/Game/Props.crate_01", "/Game/Props/SM_Crate_01").1 = build_object_path a)
    ∧ ((enable_nanite_for_all_flagged [(engineA, some ⟨some false, true⟩)]).2.get
        ⟨0, by decide⟩
      = ([(engineA, some ⟨some false, true⟩)] : Registry).get ⟨0, by decide⟩) :=
  ⟨claim_C10_frame_under_game.1 Unit alwaysOkRename () [crateA]
      ("/Game/Props.crate_01", "/Game/Props/SM_Crate_01") (by decide),
   claim_C10_frame_under_game.2 [(engineA, some ⟨some false, true⟩)] 0
      (by decide) (by decide) (by decide)⟩

/-- Helper: the missing-asset scan is the per-record `missing_row` over the
`/Game` records in enumeration order. -/
theorem find_missing_rows (loadOk : String → Bool) (assets : List AssetData) :
    find_missing_or_broken_assets loadOk assets
      = (assets.filter is_under_game).filterMap (missing_row loadOk) :=
  rfl

/-- Helper: when no scanned record has an empty name, the naming-and-nanite
loop succeeds and returns exactly the per-record rows in enumeration order. -/
theorem audit_go_rows (loadOk : String → Bool) (flagRead : String → Except Unit Bool)
    (l : List AssetData) (h : ∀ a ∈ l, (bad_name a.asset_name).isOk = true) :
    audit_go loadOk flagRead l
      = .ok (l.filterMap naming_row, l.filterMap (nanite_row loadOk flagRead)) := by
  induction l with
  | nil => rfl
  | cons b rest ih =>
    have hb := h b (List.mem_cons_self _ _)
    cases hbn : bad_name b.asset_name with
    | error e => rw [hbn] at hb; simp [Except.isOk, Except.toBool] at hb
    | ok np =>
      have hrest := ih (fun a ha => h a (List.mem_cons_of_mem _ ha))
      simp only [audit_go, hbn, hrest, List.filterMap_cons]
      congr 1
      refine Prod.ext ?_ ?_
      · cases np with
        | some p => simp [naming_row, hbn]
        | none => simp [naming_row, hbn]
      · by_cases h1 : is_static_mesh_asset b = true
        · by_cases h2 : loadOk (build_object_path b) = true
          · cases hfr : flagRead (build_object_path b) with
            | error e => simp [nanite_row, h1, h2, hfr]
            | ok en => cases en <;> simp [nanite_row, h1, h2, hfr]
          · simp [nanite_row, h1, h2]
        · simp [nanite_row, h1]

/-- Helper: when no scanned record's referencer lookup raises, the unused
loop succeeds and returns exactly the per-record rows in enumeration order. -/
theorem find_unused_go_rows (lookup : String → Except Unit (List String))
    (l : List AssetData) (h : ∀ a ∈ l, (lookup (build_object_path a)).isOk = true) :
    find_unused_go lookup l = .ok (l.filterMap (unused_row lookup)) := by
  induction l with
  | nil => rfl
  | cons b rest ih =>
    have hb := h b (List.mem_cons_self _ _)
    cases hbl : lookup (build_object_path b) with
    | error e => rw [hbl] at hb; simp [Except.isOk, Except.toBool] at hb
    | ok refs =>
      have hrest := ih (fun a ha => h a (List.mem_cons_of_mem _ ha))
      simp only [find_unused_go, hbl, hrest, List.filterMap_cons]
      by_cases he : refs.isEmpty = true
      · simp [unused_row, hbl, he]
      · simp [unused_row, hbl, he]

/-- Claim C9 (amended): no re-sorting by record id takes place.  Whenever the
scans complete (no record name is empty and no referencer lookup raises), the
audit report is the deterministic concatenation of the four sections —
missing, naming, nanite, unused — each listing its issues in registry
enumeration order as a per-record `filterMap`, with the summary total the sum
of the four section lengths; repeated runs over an unchanged registry and
adapter therefore produce identical ordering and counts, but in enumeration
order, not sorted by record id. -/
theorem claim_C9_report_order (loadOk : String → Bool)
    (flagRead : String → Except Unit Bool)
    (lookup : String → Except Unit (List String)) (assets : List AssetData)
    (H1 : ∀ a ∈ assets.filter is_under_game, (bad_name a.asset_name).isOk = true)
    (H2 : ∀ a ∈ assets.filter is_under_game,
      (lookup (build_object_path a)).isOk = true) :
    on_audit_report loadOk flagRead lookup assets
      = .ok ((assets.filter is_under_game).filterMap (missing_row loadOk)
          ++ (assets.filter is_under_game).filterMap naming_row
          ++ (assets.filter is_under_game).filterMap (nanite_row loadOk flagRead)
          ++ (assets.filter is_under_game).filterMap (unused_row lookup),
        ((assets.filter is_under_game).filterMap (missing_row loadOk)).length
          + ((assets.filter is_under_game).filterMap naming_row).length
          + ((assets.filter is_under_game).filterMap (nanite_row loadOk flagRead)).length
          + ((assets.filter is_under_game).filterMap (unused_row lookup)).length) := by
  unfold on_audit_report audit_naming_and_nanite find_unused_assets
  rw [audit_go_rows loadOk flagRead _ H1, find_unused_go_rows lookup _ H2]
  rfl

/-- Witness for claim C9's theorem, at the two-record registry enumerated in
reverse id order. -/
theorem claim_C9_witness :
    on_audit_report (fun _ => true) (fun _ => .ok true) (fun _ => .ok ["r"])
      [bItem, aItem]
      = .ok ((([bItem, aItem].filter is_under_game).filterMap
            (missing_row (fun _ => true)))
          ++ (([bItem, aItem].filter is_under_game).filterMap naming_row)
          ++ (([bItem, aItem].filter is_under_game).filterMap
            (nanite_row (fun _ => true) (fun _ => .ok true)))
          ++ (([bItem, aItem].filter is_under_game).filterMap
            (unused_row (fun _ => .ok ["r"]))),
        (([bItem, aItem].filter is_under_game).filterMap
            (missing_row (fun _ => true))).length
          + (([bItem, aItem].filter is_under_game).filterMap naming_row).length
          + (([bItem, aItem].filter is_under_game).filterMap
            (nanite_row (fun _ => true) (fun _ => .ok true))).length
          + (([bItem, aItem].filter is_under_game).filterMap
            (unused_row (fun _ => .ok ["r"]))).length) :=
  claim_C9_report_order (fun _ => true) (fun _ => .ok true) (fun _ => .ok ["r"])
    [bItem, aItem] (by decide) (by decide)
